import Mathlib

/-!
A shallow embedding of the PrivateLottery Solidity contract
(contracts/PrivateLottery.sol) and proofs about its round lifecycle,
prize distribution and administrative controls.

Modelling conventions:
* Addresses and all uint256 quantities are Nat.  Solidity 0.8 uses checked
  arithmetic, which never wraps; overflow-revert branches are unreachable for
  amounts bounded by the total ether supply and are not modelled.
* An external call is a function from a transaction environment and a
  contract state to an Option result; none models a reverted transaction.
  The host chain rolls a reverted transaction back completely, which the
  execCall wrapper makes explicit: a reverted call keeps the old state and
  performs no outbound payments and emits no events.
* euint32 ciphertext handles are opaque Nat values; the FHE access-control
  calls (FHE.allowThis, FHE.allow) mutate only the external ACL, not the
  contract state, and are not part of the state.
* The keccak256-derived random value of drawWinner is an arbitrary Nat
  supplied by the environment (entropy); the contract only uses it modulo
  the entry count.
* The low-level value transfers can fail; the environment decides success
  per recipient and amount (transferOk).
-/

namespace PrivLottery

abbrev Address := Nat

/-- One stored lottery entry: struct LotteryEntry. -/
structure LotteryEntry where
  participant : Address
  encryptedNumber : Nat
  timestamp : Nat
  deriving DecidableEq, Repr

/-- One recorded winner: struct Winner. -/
structure Winner where
  winner : Address
  prize : Nat
  winningNumber : Nat
  timestamp : Nat
  deriving DecidableEq, Repr

/-- Events the contract can emit. -/
inductive Event where
  | LotteryEntered (participant : Address) (timestamp : Nat) (round : Nat)
  | WinnerDrawn (winner : Address) (prize : Nat) (winningNumber : Nat) (round : Nat)
  | LotteryReset (newRound : Nat)
  | LotteryStatusChanged (isActive : Bool)
  deriving DecidableEq, Repr

/-- mapping(address => uint256), as an association list with default 0. -/
abbrev NatMap := List (Address × Nat)

/-- mapping(address => bool), as an association list with default false. -/
abbrev BoolMap := List (Address × Bool)

def mapGet (m : NatMap) (a : Address) : Nat :=
  match m with
  | [] => 0
  | (k, v) :: rest => if k = a then v else mapGet rest a

def mapSet (m : NatMap) (a : Address) (v : Nat) : NatMap :=
  match m with
  | [] => [(a, v)]
  | (k, w) :: rest => if k = a then (a, v) :: rest else (k, w) :: mapSet rest a v

def bmapGet (m : BoolMap) (a : Address) : Bool :=
  match m with
  | [] => false
  | (k, v) :: rest => if k = a then v else bmapGet rest a

def bmapSet (m : BoolMap) (a : Address) (v : Bool) : BoolMap :=
  match m with
  | [] => [(a, v)]
  | (k, w) :: rest => if k = a then (a, v) :: rest else (k, w) :: bmapSet rest a v

/-- The full storage of the PrivateLottery contract, plus its ether balance. -/
structure LotteryState where
  owner : Address
  entryFee : Nat
  prizePool : Nat
  isActive : Bool
  roundNumber : Nat
  entries : List LotteryEntry
  winners : List Winner
  participantEntries : NatMap
  hasWon : BoolMap
  balance : Nat
  deriving DecidableEq, Repr

/-- State right after the constructor runs with deployer as msg.sender:
entryFee = 0.001 ether, isActive = true, roundNumber = 1. -/
def initialState (deployer : Address) : LotteryState :=
  { owner := deployer
    entryFee := 1000000000000000
    prizePool := 0
    isActive := true
    roundNumber := 1
    entries := []
    winners := []
    participantEntries := []
    hasWon := []
    balance := 0 }

/-- The transaction environment a call runs in: msg.sender, msg.value,
block.timestamp, the keccak256 entropy word used by drawWinner, and
whether a low-level value transfer to a given address of a given amount
succeeds. -/
structure TxEnv where
  sender : Address
  value : Nat
  timestamp : Nat
  entropy : Nat
  transferOk : Address → Nat → Bool

/-- Result of a non-reverting call: the new state, the emitted events in
order, and the outbound value transfers (recipient, amount) in order. -/
structure CallResult where
  state : LotteryState
  events : List Event
  payments : List (Address × Nat)
  deriving DecidableEq, Repr

/-- Host-chain revert semantics: a reverted call (none) leaves the state
unchanged, emits nothing and pays nothing. -/
def execCall (s : LotteryState) : Option CallResult → CallResult
  | some r => r
  | none => { state := s, events := [], payments := [] }

/-- enterLottery: onlyActive; require msg.value >= entryFee; push the entry,
bump the caller entry counter, add the whole msg.value to the pool. -/
def enterLottery (env : TxEnv) (encryptedNumber : Nat) (s : LotteryState) :
    Option CallResult :=
  if s.isActive = false then none
  else if env.value < s.entryFee then none
  else
    some
      { state :=
          { s with
            entries := s.entries ++
              [{ participant := env.sender, encryptedNumber := encryptedNumber,
                 timestamp := env.timestamp }]
            participantEntries :=
              mapSet s.participantEntries env.sender
                (mapGet s.participantEntries env.sender + 1)
            prizePool := s.prizePool + env.value
            balance := s.balance + env.value }
        events := [Event.LotteryEntered env.sender env.timestamp s.roundNumber]
        payments := [] }

def dummyEntry : LotteryEntry := { participant := 0, encryptedNumber := 0, timestamp := 0 }

/-- randomIndex of drawWinner: the keccak word reduced modulo the entry count. -/
def drawIndex (env : TxEnv) (s : LotteryState) : Nat :=
  env.entropy % s.entries.length

/-- The entry drawWinner selects. -/
def selectedEntry (env : TxEnv) (s : LotteryState) : LotteryEntry :=
  s.entries.getD (drawIndex env s) dummyEntry

/-- The participant drawWinner selects as winner. -/
def selectedWinner (env : TxEnv) (s : LotteryState) : Address :=
  (selectedEntry env s).participant

/-- prize = (prizePool * 80) / 100, integer division. -/
def drawPrize (s : LotteryState) : Nat :=
  s.prizePool * 80 / 100

/-- ownerFee = prizePool - prize. -/
def drawOwnerFee (s : LotteryState) : Nat :=
  s.prizePool - drawPrize s

/-- resetLottery (internal): delete entries, zero the pool, bump the round,
emit LotteryReset with the new round number. -/
def resetLottery (s : LotteryState) : LotteryState × Event :=
  ({ s with entries := [], prizePool := 0, roundNumber := s.roundNumber + 1 },
   Event.LotteryReset (s.roundNumber + 1))

/-- drawWinner: onlyOwner, onlyActive, require a nonempty entry list; pick
the entry at the entropy-derived index, record the winner (hasWon flag and
a Winner record with the placeholder winning number 0), transfer 80 percent
of the pool to the winner and the rest to the owner (reverting if either
transfer fails), emit WinnerDrawn, then reset for the next round.  Returns
the winner address. -/
def drawWinner (env : TxEnv) (s : LotteryState) : Option (CallResult × Address) :=
  if env.sender ≠ s.owner then none
  else if s.isActive = false then none
  else if s.entries.length = 0 then none
  else
    let winner := selectedWinner env s
    let winningNumber : Nat := 0
    let prize := drawPrize s
    let ownerFee := drawOwnerFee s
    let s1 :=
      { s with
        hasWon := bmapSet s.hasWon winner true
        winners := s.winners ++
          [({ winner := winner, prize := prize, winningNumber := winningNumber,
              timestamp := env.timestamp } : Winner)] }
    if env.transferOk winner prize = false then none
    else if env.transferOk s.owner ownerFee = false then none
    else
      let s2 := { s1 with balance := s1.balance - (prize + ownerFee) }
      let reset := resetLottery s2
      some
        (({ state := reset.1
            events := [Event.WinnerDrawn winner prize winningNumber s.roundNumber, reset.2]
            payments := [(winner, prize), (s.owner, ownerFee)] } : CallResult),
         winner)

/-- setLotteryActive: onlyOwner; set the flag and emit LotteryStatusChanged. -/
def setLotteryActive (env : TxEnv) (active : Bool) (s : LotteryState) :
    Option CallResult :=
  if env.sender ≠ s.owner then none
  else
    some
      { state := { s with isActive := active }
        events := [Event.LotteryStatusChanged active]
        payments := [] }

/-- setEntryFee: onlyOwner; set the fee.  The source emits no event here. -/
def setEntryFee (env : TxEnv) (newFee : Nat) (s : LotteryState) :
    Option CallResult :=
  if env.sender ≠ s.owner then none
  else
    some
      { state := { s with entryFee := newFee }
        events := []
        payments := [] }

/-- emergencyWithdraw: onlyOwner; send the whole contract balance to the
owner, reverting if the transfer fails.  It touches no other storage slot. -/
def emergencyWithdraw (env : TxEnv) (s : LotteryState) : Option CallResult :=
  if env.sender ≠ s.owner then none
  else if env.transferOk s.owner s.balance = false then none
  else
    some
      { state := { s with balance := 0 }
        events := []
        payments := [(s.owner, s.balance)] }

/-- receive and fallback: accept any value and add it to the pool. -/
def receiveEther (env : TxEnv) (s : LotteryState) : Option CallResult :=
  some
    { state := { s with prizePool := s.prizePool + env.value,
                        balance := s.balance + env.value }
      events := []
      payments := [] }

/-- View function getPrizePool. -/
def getPrizePool (s : LotteryState) : Nat := s.prizePool

/-- View function getEntryCount. -/
def getEntryCount (s : LotteryState) : Nat := s.entries.length

/-- View function getCurrentRound. -/
def getCurrentRound (s : LotteryState) : Nat := s.roundNumber

/-- View function getParticipantEntries. -/
def getParticipantEntries (s : LotteryState) (participant : Address) : Nat :=
  mapGet s.participantEntries participant

/-- View function hasParticipantWon. -/
def hasParticipantWon (s : LotteryState) (participant : Address) : Bool :=
  bmapGet s.hasWon participant

/-- enterLottery at the transaction level (revert keeps the state). -/
def execEnterLottery (env : TxEnv) (encryptedNumber : Nat) (s : LotteryState) :
    CallResult :=
  execCall s (enterLottery env encryptedNumber s)

/-- drawWinner at the transaction level (revert keeps the state). -/
def execDrawWinner (env : TxEnv) (s : LotteryState) : CallResult :=
  execCall s ((drawWinner env s).map Prod.fst)

/-- setLotteryActive at the transaction level. -/
def execSetLotteryActive (env : TxEnv) (active : Bool) (s : LotteryState) :
    CallResult :=
  execCall s (setLotteryActive env active s)

/-- setEntryFee at the transaction level. -/
def execSetEntryFee (env : TxEnv) (newFee : Nat) (s : LotteryState) : CallResult :=
  execCall s (setEntryFee env newFee s)

/-- emergencyWithdraw at the transaction level. -/
def execEmergencyWithdraw (env : TxEnv) (s : LotteryState) : CallResult :=
  execCall s (emergencyWithdraw env s)

/-- receive and fallback at the transaction level. -/
def execReceiveEther (env : TxEnv) (s : LotteryState) : CallResult :=
  execCall s (receiveEther env s)

/-- Any externally callable operation of the contract, with its environment
and arguments. -/
inductive Op where
  | enter (env : TxEnv) (encryptedNumber : Nat)
  | draw (env : TxEnv)
  | setActive (env : TxEnv) (active : Bool)
  | setFee (env : TxEnv) (newFee : Nat)
  | withdraw (env : TxEnv)
  | receiveEth (env : TxEnv)

/-- The state transition of one externally submitted transaction. -/
def applyOp (op : Op) (s : LotteryState) : LotteryState :=
  match op with
  | Op.enter env n => (execEnterLottery env n s).state
  | Op.draw env => (execDrawWinner env s).state
  | Op.setActive env b => (execSetLotteryActive env b s).state
  | Op.setFee env f => (execSetEntryFee env f s).state
  | Op.withdraw env => (execEmergencyWithdraw env s).state
  | Op.receiveEth env => (execReceiveEther env s).state

/-- A whole transaction history applied in order. -/
def applyOps (ops : List Op) (s : LotteryState) : LotteryState :=
  ops.foldl (fun t op => applyOp op t) s

/-! Concrete fixtures used to instantiate theorems with hypotheses. -/

/-- A small reachable-looking state: two entries by participants 1 and 2,
pool 3000, owner 100, fee 1000. -/
def exState : LotteryState :=
  { owner := 100
    entryFee := 1000
    prizePool := 3000
    isActive := true
    roundNumber := 1
    entries := [{ participant := 1, encryptedNumber := 7, timestamp := 10 },
                { participant := 2, encryptedNumber := 9, timestamp := 11 }]
    winners := []
    participantEntries := [(1, 1), (2, 1)]
    hasWon := []
    balance := 3000 }

/-- Owner-sent transaction in which every transfer succeeds. -/
def exEnvOk : TxEnv :=
  { sender := 100, value := 0, timestamp := 50, entropy := 0,
    transferOk := fun _ _ => true }

/-- Owner-sent transaction in which every transfer fails. -/
def exEnvFail : TxEnv :=
  { sender := 100, value := 0, timestamp := 50, entropy := 0,
    transferOk := fun _ _ => false }

/-- The call result of drawWinner exEnvOk exState, written out. -/
def exDrawResult : CallResult :=
  { state :=
      { owner := 100
        entryFee := 1000
        prizePool := 0
        isActive := true
        roundNumber := 2
        entries := []
        winners := [{ winner := 1, prize := 2400, winningNumber := 0, timestamp := 50 }]
        participantEntries := [(1, 1), (2, 1)]
        hasWon := [(1, true)]
        balance := 0 }
    events := [Event.WinnerDrawn 1 2400 0 1, Event.LotteryReset 2]
    payments := [(1, 2400), (100, 600)] }

/-! Helper lemmas. -/

lemma mapGet_mapSet_self (m : NatMap) (a : Address) (v : Nat) :
    mapGet (mapSet m a v) a = v := by
  induction m with
  | nil => simp [mapSet, mapGet]
  | cons kv rest ih =>
      obtain ⟨k, w⟩ := kv
      by_cases hk : k = a
      · simp [mapSet, mapGet, hk]
      · simp [mapSet, mapGet, hk, ih]

lemma mapGet_mapSet_ne (m : NatMap) (a b : Address) (v : Nat) (hab : a ≠ b) :
    mapGet (mapSet m a v) b = mapGet m b := by
  induction m with
  | nil => simp [mapSet, mapGet, hab]
  | cons kv rest ih =>
      obtain ⟨k, w⟩ := kv
      by_cases hk : k = a
      · subst hk
        simp [mapSet, mapGet, hab]
      · simp [mapSet, mapGet, hk, ih]

lemma drawPrize_le (s : LotteryState) : drawPrize s ≤ s.prizePool := by
  unfold drawPrize
  calc s.prizePool * 80 / 100 ≤ s.prizePool * 100 / 100 :=
        Nat.div_le_div_right (Nat.mul_le_mul_left _ (by norm_num))
    _ = s.prizePool := Nat.mul_div_cancel _ (by norm_num)

/-- Inversion of a successful drawWinner call: the returned address is the
selected participant and the result is the fully evaluated record. -/
lemma drawWinner_inv (env : TxEnv) (s : LotteryState) (r : CallResult)
    (w : Address) (h : drawWinner env s = some (r, w)) :
    w = selectedWinner env s ∧
    r = { state :=
            { s with
              hasWon := bmapSet s.hasWon (selectedWinner env s) true
              winners := s.winners ++
                [{ winner := selectedWinner env s, prize := drawPrize s,
                   winningNumber := 0, timestamp := env.timestamp }]
              balance := s.balance - (drawPrize s + drawOwnerFee s)
              entries := []
              prizePool := 0
              roundNumber := s.roundNumber + 1 }
          events := [Event.WinnerDrawn (selectedWinner env s) (drawPrize s) 0 s.roundNumber,
                     Event.LotteryReset (s.roundNumber + 1)]
          payments := [(selectedWinner env s, drawPrize s), (s.owner, drawOwnerFee s)] } := by
  simp only [drawWinner, resetLottery] at h
  split at h
  · exact Option.noConfusion h
  split at h
  · exact Option.noConfusion h
  split at h
  · exact Option.noConfusion h
  split at h
  · exact Option.noConfusion h
  split at h
  · exact Option.noConfusion h
  rw [Option.some.injEq, Prod.mk.injEq] at h
  obtain ⟨h1, h2⟩ := h
  subst h1
  subst h2
  exact ⟨rfl, rfl⟩

/-- Claim C4: after every successful drawWinner call, unconditionally, the
entry count is 0, the prize pool is 0, and the round number is the pre-draw
round number plus one. -/
theorem drawWinner_round_reset (env : TxEnv) (s : LotteryState) (r : CallResult)
    (w : Address) (h : drawWinner env s = some (r, w)) :
    getEntryCount r.state = 0 ∧ getPrizePool r.state = 0 ∧
    getCurrentRound r.state = getCurrentRound s + 1 := by
  obtain ⟨-, hr⟩ := drawWinner_inv env s r w h
  subst hr
  exact ⟨rfl, rfl, rfl⟩

/-- Witness for C4 at a concrete draw. -/
theorem drawWinner_round_reset_witness :
    drawWinner exEnvOk exState = some (exDrawResult, 1) ∧
    (getEntryCount exDrawResult.state = 0 ∧ getPrizePool exDrawResult.state = 0 ∧
     getCurrentRound exDrawResult.state = getCurrentRound exState + 1) :=
  ⟨by decide, drawWinner_round_reset exEnvOk exState exDrawResult 1 (by decide)⟩

/-- Claim C3: in every successful drawWinner call the winner is paid
floor(pool * 80 / 100) and the owner is paid pool minus that amount, and the
two payouts sum exactly to the pool at draw time. -/
theorem drawWinner_payout_split (env : TxEnv) (s : LotteryState) (r : CallResult)
    (w : Address) (h : drawWinner env s = some (r, w)) :
    r.payments = [(w, drawPrize s), (s.owner, drawOwnerFee s)] ∧
    drawPrize s = s.prizePool * 80 / 100 ∧
    drawOwnerFee s = s.prizePool - drawPrize s ∧
    drawPrize s + drawOwnerFee s = s.prizePool := by
  obtain ⟨hw, hr⟩ := drawWinner_inv env s r w h
  subst hw
  subst hr
  exact ⟨rfl, rfl, rfl, Nat.add_sub_cancel' (drawPrize_le s)⟩

/-- Witness for C3 at a concrete draw: pool 3000 splits into 2400 and 600. -/
theorem drawWinner_payout_split_witness :
    drawWinner exEnvOk exState = some (exDrawResult, 1) ∧
    (exDrawResult.payments = [(1, drawPrize exState), (exState.owner, drawOwnerFee exState)] ∧
     drawPrize exState = exState.prizePool * 80 / 100 ∧
     drawOwnerFee exState = exState.prizePool - drawPrize exState ∧
     drawPrize exState + drawOwnerFee exState = exState.prizePool) :=
  ⟨by decide, drawWinner_payout_split exEnvOk exState exDrawResult 1 (by decide)⟩

/-- Claim C1: if either payout transfer of drawWinner fails, the whole call
reverts: no funds leave the contract and the transaction-level result keeps
every storage slot exactly as it was. -/
theorem drawWinner_transfer_failure_atomic (env : TxEnv) (s : LotteryState)
    (h : env.transferOk (selectedWinner env s) (drawPrize s) = false ∨
         env.transferOk s.owner (drawOwnerFee s) = false) :
    drawWinner env s = none ∧
    execDrawWinner env s = { state := s, events := [], payments := [] } := by
  have hnone : drawWinner env s = none := by
    simp only [drawWinner]
    split
    · rfl
    split
    · rfl
    split
    · rfl
    rcases h with hw | ho
    · simp [hw]
    · by_cases hw2 : env.transferOk (selectedWinner env s) (drawPrize s) = false
      · simp [hw2]
      · simp [hw2, ho]
  exact ⟨hnone, by simp [execDrawWinner, hnone, execCall]⟩

/-- Witness for C1: a concrete draw in which both transfers fail is fully
rolled back. -/
theorem drawWinner_transfer_failure_atomic_witness :
    (exEnvFail.transferOk (selectedWinner exEnvFail exState) (drawPrize exState) = false ∨
     exEnvFail.transferOk exState.owner (drawOwnerFee exState) = false) ∧
    (drawWinner exEnvFail exState = none ∧
     execDrawWinner exEnvFail exState = { state := exState, events := [], payments := [] }) :=
  ⟨Or.inl rfl, drawWinner_transfer_failure_atomic exEnvFail exState (Or.inl rfl)⟩

/-- exState with the lottery switched off. -/
def exStateInactive : LotteryState := { exState with isActive := false }

/-- Counterexample to C2 as stated: the caller is the owner, an entry exists
and every transfer succeeds, yet drawWinner reverts because the lottery is
not active. -/
theorem drawWinner_preconds_insufficient :
    exEnvOk.sender = exStateInactive.owner ∧
    0 < exStateInactive.entries.length ∧
    exEnvOk.transferOk (selectedWinner exEnvOk exStateInactive) (drawPrize exStateInactive) = true ∧
    exEnvOk.transferOk exStateInactive.owner (drawOwnerFee exStateInactive) = true ∧
    drawWinner exEnvOk exStateInactive = none := by
  decide

/-- Claim C2 (amended): owner caller, an active lottery, a nonempty entry
list and two succeeding transfers make drawWinner succeed. -/
theorem drawWinner_success_sufficient (env : TxEnv) (s : LotteryState)
    (hown : env.sender = s.owner) (hact : s.isActive = true)
    (hne : s.entries.length ≠ 0)
    (hw : env.transferOk (selectedWinner env s) (drawPrize s) = true)
    (ho : env.transferOk s.owner (drawOwnerFee s) = true) :
    (drawWinner env s).isSome = true := by
  simp [drawWinner, hown, hact, hne, hw, ho]

/-- Witness for the amended C2 at a concrete state. -/
theorem drawWinner_success_sufficient_witness :
    (exEnvOk.sender = exState.owner ∧ exState.isActive = true ∧
     exState.entries.length ≠ 0 ∧
     exEnvOk.transferOk (selectedWinner exEnvOk exState) (drawPrize exState) = true ∧
     exEnvOk.transferOk exState.owner (drawOwnerFee exState) = true) ∧
    (drawWinner exEnvOk exState).isSome = true :=
  ⟨⟨rfl, rfl, by decide, rfl, rfl⟩,
   drawWinner_success_sufficient exEnvOk exState rfl rfl (by decide) rfl rfl⟩

/-- Inversion of a successful enterLottery call. -/
lemma enterLottery_inv (env : TxEnv) (n : Nat) (s : LotteryState) (r : CallResult)
    (h : enterLottery env n s = some r) :
    r = { state :=
            { s with
              entries := s.entries ++
                [{ participant := env.sender, encryptedNumber := n,
                   timestamp := env.timestamp }]
              participantEntries :=
                mapSet s.participantEntries env.sender
                  (mapGet s.participantEntries env.sender + 1)
              prizePool := s.prizePool + env.value
              balance := s.balance + env.value }
          events := [Event.LotteryEntered env.sender env.timestamp s.roundNumber]
          payments := [] } := by
  simp only [enterLottery] at h
  split at h
  · exact Option.noConfusion h
  split at h
  · exact Option.noConfusion h
  rw [Option.some.injEq] at h
  exact h.symm

/-- Claim C5: a successful enterLottery call appends exactly one entry,
bumps the caller entry counter by exactly one, and adds the whole attached
payment to the prize pool, refunding nothing. -/
theorem enterLottery_effects (env : TxEnv) (n : Nat) (s : LotteryState)
    (r : CallResult) (h : enterLottery env n s = some r) :
    r.state.entries = s.entries ++
      [{ participant := env.sender, encryptedNumber := n, timestamp := env.timestamp }] ∧
    getParticipantEntries r.state env.sender = getParticipantEntries s env.sender + 1 ∧
    r.state.prizePool = s.prizePool + env.value ∧
    r.payments = [] := by
  have hr := enterLottery_inv env n s r h
  subst hr
  exact ⟨rfl, mapGet_mapSet_self _ _ _, rfl, rfl⟩

/-- Participant 1 enters again, overpaying a 1000-wei fee with 2000 wei. -/
def exEnterEnv : TxEnv :=
  { sender := 1, value := 2000, timestamp := 60, entropy := 0,
    transferOk := fun _ _ => true }

/-- The call result of enterLottery exEnterEnv 5 exState, written out. -/
def exEnterResult : CallResult :=
  { state :=
      { owner := 100
        entryFee := 1000
        prizePool := 5000
        isActive := true
        roundNumber := 1
        entries := [{ participant := 1, encryptedNumber := 7, timestamp := 10 },
                    { participant := 2, encryptedNumber := 9, timestamp := 11 },
                    { participant := 1, encryptedNumber := 5, timestamp := 60 }]
        winners := []
        participantEntries := [(1, 2), (2, 1)]
        hasWon := []
        balance := 5000 }
    events := [Event.LotteryEntered 1 60 1]
    payments := [] }

/-- Witness for C5: an overpaid entry is retained in full. -/
theorem enterLottery_effects_witness :
    enterLottery exEnterEnv 5 exState = some exEnterResult ∧
    (exEnterResult.state.entries = exState.entries ++
       [{ participant := 1, encryptedNumber := 5, timestamp := 60 }] ∧
     getParticipantEntries exEnterResult.state 1 = getParticipantEntries exState 1 + 1 ∧
     exEnterResult.state.prizePool = exState.prizePool + 2000 ∧
     exEnterResult.payments = []) :=
  ⟨by decide, enterLottery_effects exEnterEnv 5 exState exEnterResult (by decide)⟩

/-- Claim C6: every failing call is an atomic rejection.  An entry below the
fee or while inactive, a draw with no entries, and every non-owner call to
the gated functions roll back to exactly the pre-call state, with no events
and no payments. -/
theorem failing_calls_leave_state_unchanged (env : TxEnv) (s : LotteryState)
    (n : Nat) (b : Bool) (f : Nat) :
    ((s.isActive = false ∨ env.value < s.entryFee) →
       execEnterLottery env n s = { state := s, events := [], payments := [] }) ∧
    (s.entries = [] →
       execDrawWinner env s = { state := s, events := [], payments := [] }) ∧
    (env.sender ≠ s.owner →
       execDrawWinner env s = { state := s, events := [], payments := [] } ∧
       execSetLotteryActive env b s = { state := s, events := [], payments := [] } ∧
       execSetEntryFee env f s = { state := s, events := [], payments := [] } ∧
       execEmergencyWithdraw env s = { state := s, events := [], payments := [] }) := by
  refine ⟨?_, ?_, ?_⟩
  · intro h
    have hnone : enterLottery env n s = none := by
      unfold enterLottery
      rcases h with h1 | h2
      · simp [h1]
      · by_cases h1 : s.isActive = false
        · simp [h1]
        · simp [h1, h2]
    simp [execEnterLottery, execCall, hnone]
  · intro hent
    have hnone : drawWinner env s = none := by
      unfold drawWinner
      split
      · rfl
      split
      · rfl
      split
      · rfl
      · rename_i hlen
        exact absurd (by simp [hent]) hlen
    simp [execDrawWinner, execCall, hnone]
  · intro hno
    refine ⟨?_, ?_, ?_, ?_⟩
    · simp [execDrawWinner, execCall, drawWinner, hno]
    · simp [execSetLotteryActive, execCall, setLotteryActive, hno]
    · simp [execSetEntryFee, execCall, setEntryFee, hno]
    · simp [execEmergencyWithdraw, execCall, emergencyWithdraw, hno]

/-- A stranger transaction: sender 3 is not the owner, pays below the
1000-wei fee, and the state has been switched inactive with no entries. -/
def exStrangerEnv : TxEnv :=
  { sender := 3, value := 10, timestamp := 70, entropy := 4,
    transferOk := fun _ _ => true }

/-- An inactive, empty-round variant of exState. -/
def exStateEmptyInactive : LotteryState :=
  { exState with isActive := false, entries := [] }

/-- Witness for C6: every rejected call keeps the concrete state intact. -/
theorem failing_calls_leave_state_unchanged_witness :
    ((exStateEmptyInactive.isActive = false ∨
        exStrangerEnv.value < exStateEmptyInactive.entryFee) ∧
     exStateEmptyInactive.entries = [] ∧
     exStrangerEnv.sender ≠ exStateEmptyInactive.owner) ∧
    (execEnterLottery exStrangerEnv 9 exStateEmptyInactive =
       { state := exStateEmptyInactive, events := [], payments := [] } ∧
     execDrawWinner exStrangerEnv exStateEmptyInactive =
       { state := exStateEmptyInactive, events := [], payments := [] } ∧
     execSetLotteryActive exStrangerEnv true exStateEmptyInactive =
       { state := exStateEmptyInactive, events := [], payments := [] } ∧
     execSetEntryFee exStrangerEnv 1 exStateEmptyInactive =
       { state := exStateEmptyInactive, events := [], payments := [] } ∧
     execEmergencyWithdraw exStrangerEnv exStateEmptyInactive =
       { state := exStateEmptyInactive, events := [], payments := [] }) :=
  ⟨⟨Or.inl (by decide), by decide, by decide⟩,
   ⟨(failing_calls_leave_state_unchanged exStrangerEnv exStateEmptyInactive 9 true 1).1
      (Or.inl (by decide)),
    ((failing_calls_leave_state_unchanged exStrangerEnv exStateEmptyInactive 9 true 1).2.2
      (by decide)).1,
    ((failing_calls_leave_state_unchanged exStrangerEnv exStateEmptyInactive 9 true 1).2.2
      (by decide)).2.1,
    ((failing_calls_leave_state_unchanged exStrangerEnv exStateEmptyInactive 9 true 1).2.2
      (by decide)).2.2.1,
    ((failing_calls_leave_state_unchanged exStrangerEnv exStateEmptyInactive 9 true 1).2.2
      (by decide)).2.2.2⟩⟩

/-- One transaction never lowers any per-address lifetime entry counter. -/
lemma applyOp_pe_mono (op : Op) (t : LotteryState) (a : Address) :
    getParticipantEntries t a ≤ getParticipantEntries (applyOp op t) a := by
  cases op with
  | enter env n =>
      simp only [applyOp, execEnterLottery]
      cases h : enterLottery env n t with
      | none => simp [execCall, h]
      | some r =>
          have hr := enterLottery_inv env n t r h
          subst hr
          simp only [execCall, h, getParticipantEntries]
          by_cases hab : env.sender = a
          · subst hab
            rw [mapGet_mapSet_self]
            omega
          · rw [mapGet_mapSet_ne _ _ _ _ hab]
  | draw env =>
      simp only [applyOp, execDrawWinner]
      cases h : drawWinner env t with
      | none => simp [execCall, h]
      | some p =>
          obtain ⟨r, w⟩ := p
          obtain ⟨-, hr⟩ := drawWinner_inv env t r w h
          subst hr
          simp [execCall, h, getParticipantEntries]
  | setActive env b =>
      simp only [applyOp, execSetLotteryActive, setLotteryActive]
      split <;> simp [execCall, getParticipantEntries]
  | setFee env f =>
      simp only [applyOp, execSetEntryFee, setEntryFee]
      split <;> simp [execCall, getParticipantEntries]
  | withdraw env =>
      simp only [applyOp, execEmergencyWithdraw, emergencyWithdraw]
      split
      · simp [execCall, getParticipantEntries]
      · split <;> simp [execCall, getParticipantEntries]
  | receiveEth env =>
      simp only [applyOp, execReceiveEther, receiveEther]
      simp [execCall, getParticipantEntries]

/-- Claim C7: across any sequence of transactions, a per-address lifetime
entry counter never decreases; in particular a draw round reset never
clears it. -/
theorem participantEntries_monotone (ops : List Op) (s : LotteryState)
    (a : Address) :
    getParticipantEntries s a ≤ getParticipantEntries (applyOps ops s) a := by
  induction ops generalizing s with
  | nil => simp [applyOps]
  | cons op rest ih =>
      calc getParticipantEntries s a
          ≤ getParticipantEntries (applyOp op s) a := applyOp_pe_mono op s a
        _ ≤ getParticipantEntries (applyOps rest (applyOp op s)) a := ih (applyOp op s)
        _ = getParticipantEntries (applyOps (op :: rest) s) a := by
              simp [applyOps]

/-- The call result of setEntryFee exEnvOk 5 exState, written out. -/
def exSetFeeResult : CallResult :=
  { state := { exState with entryFee := 5 }, events := [], payments := [] }

/-- The call result of setLotteryActive exEnvOk false exState, written out. -/
def exSetActiveResult : CallResult :=
  { state := { exState with isActive := false }
    events := [Event.LotteryStatusChanged false]
    payments := [] }

/-- Counterexample to C8 as stated: a successful owner call to setEntryFee
emits no event at all. -/
theorem setEntryFee_emits_no_event_counterexample :
    exEnvOk.sender = exState.owner ∧
    setEntryFee exEnvOk 5 exState = some exSetFeeResult ∧
    exSetFeeResult.events = [] := by
  decide

/-- Claim C8 (amended): a successful setEntryFee call updates the fee for
subsequent entries but emits nothing; only setLotteryActive emits the
status-change event. -/
theorem setEntryFee_updates_without_event (env : TxEnv) (f : Nat) (b : Bool)
    (s : LotteryState) :
    (∀ r, setEntryFee env f s = some r →
       r.state.entryFee = f ∧ r.events = []) ∧
    (∀ r, setLotteryActive env b s = some r →
       r.events = [Event.LotteryStatusChanged b]) := by
  constructor
  · intro r h
    simp only [setEntryFee] at h
    split at h
    · exact Option.noConfusion h
    · rw [Option.some.injEq] at h
      subst h
      exact ⟨rfl, rfl⟩
  · intro r h
    simp only [setLotteryActive] at h
    split at h
    · exact Option.noConfusion h
    · rw [Option.some.injEq] at h
      subst h
      rfl

/-- Witness for the amended C8 at concrete owner calls. -/
theorem setEntryFee_updates_without_event_witness :
    (setEntryFee exEnvOk 5 exState = some exSetFeeResult ∧
     setLotteryActive exEnvOk false exState = some exSetActiveResult) ∧
    ((exSetFeeResult.state.entryFee = 5 ∧ exSetFeeResult.events = []) ∧
     exSetActiveResult.events = [Event.LotteryStatusChanged false]) :=
  ⟨⟨by decide, by decide⟩,
   ⟨(setEntryFee_updates_without_event exEnvOk 5 false exState).1 exSetFeeResult (by decide),
    (setEntryFee_updates_without_event exEnvOk 5 false exState).2 exSetActiveResult (by decide)⟩⟩

/-- No transaction ever rewrites or drops an existing winner record: the old
winners list is always a left factor of the new one. -/
lemma applyOp_winners_extend (op : Op) (t : LotteryState) :
    ((applyOp op t).winners).take t.winners.length = t.winners := by
  cases op with
  | enter env n =>
      simp only [applyOp, execEnterLottery]
      cases h : enterLottery env n t with
      | none => simp [execCall, h, List.take_length]
      | some r =>
          have hr := enterLottery_inv env n t r h
          subst hr
          simp [execCall, h, List.take_length]
  | draw env =>
      simp only [applyOp, execDrawWinner]
      cases h : drawWinner env t with
      | none => simp [execCall, h, List.take_length]
      | some p =>
          obtain ⟨r, w⟩ := p
          obtain ⟨-, hr⟩ := drawWinner_inv env t r w h
          subst hr
          simp [execCall, h, List.take_left]
  | setActive env b =>
      simp only [applyOp, execSetLotteryActive, setLotteryActive]
      split <;> simp [execCall, List.take_length]
  | setFee env f =>
      simp only [applyOp, execSetEntryFee, setEntryFee]
      split <;> simp [execCall, List.take_length]
  | withdraw env =>
      simp only [applyOp, execEmergencyWithdraw, emergencyWithdraw]
      split
      · simp [execCall, List.take_length]
      · split <;> simp [execCall, List.take_length]
  | receiveEth env =>
      simp only [applyOp, execReceiveEther, receiveEther]
      simp [execCall, List.take_length]

/-- Counterexample to C9 as stated: in a concrete draw the selected entry
carries the opaque number 7, yet the appended record stores the constant
placeholder 0, not the entry's number. -/
theorem winner_record_placeholder_counterexample :
    (selectedEntry exEnvOk exState).encryptedNumber = 7 ∧
    drawWinner exEnvOk exState = some (exDrawResult, 1) ∧
    exDrawResult.state.winners =
      [{ winner := 1, prize := 2400, winningNumber := 0, timestamp := 50 }] ∧
    ({ winner := 1, prize := 2400, winningNumber := 0, timestamp := 50 } : Winner).winningNumber ≠
      (selectedEntry exEnvOk exState).encryptedNumber := by
  decide

/-- Claim C9 (amended): every successful draw appends exactly one winner
record holding the winner identity, the prize, the placeholder winning
number 0 (the chosen number itself is not copied into the record; its
decryption is deferred to the external access-control layer) and the block
timestamp; and no transaction ever mutates an existing record. -/
theorem drawWinner_appends_one_winner (env : TxEnv) (s : LotteryState)
    (r : CallResult) (w : Address) (h : drawWinner env s = some (r, w)) :
    r.state.winners = s.winners ++
      [{ winner := w, prize := drawPrize s, winningNumber := 0,
         timestamp := env.timestamp }] ∧
    (∀ op t, ((applyOp op t).winners).take t.winners.length = t.winners) := by
  constructor
  · obtain ⟨hw, hr⟩ := drawWinner_inv env s r w h
    subst hw
    subst hr
    rfl
  · intro op t
    exact applyOp_winners_extend op t

/-- Witness for the amended C9 at a concrete draw. -/
theorem drawWinner_appends_one_winner_witness :
    drawWinner exEnvOk exState = some (exDrawResult, 1) ∧
    (exDrawResult.state.winners = exState.winners ++
       [{ winner := 1, prize := drawPrize exState, winningNumber := 0,
          timestamp := 50 }] ∧
     (applyOp (Op.draw exEnvOk) exState).winners.take exState.winners.length =
       exState.winners) :=
  ⟨by decide,
   ⟨(drawWinner_appends_one_winner exEnvOk exState exDrawResult 1 (by decide)).1,
    (drawWinner_appends_one_winner exEnvOk exState exDrawResult 1 (by decide)).2
      (Op.draw exEnvOk) exState⟩⟩

/-- Claim C10: a successful emergencyWithdraw sends the whole held balance
to the owner and changes nothing else: the prizePool variable in particular
is not zeroed, so getPrizePool can then exceed the actual balance. -/
theorem emergencyWithdraw_frame (env : TxEnv) (s : LotteryState)
    (r : CallResult) (h : emergencyWithdraw env s = some r) :
    r.payments = [(s.owner, s.balance)] ∧
    r.state.balance = 0 ∧
    getPrizePool r.state = getPrizePool s ∧
    r.state.entries = s.entries ∧
    r.state.roundNumber = s.roundNumber ∧
    r.state.entryFee = s.entryFee ∧
    r.state.isActive = s.isActive ∧
    (0 < s.prizePool → r.state.balance < getPrizePool r.state) := by
  simp only [emergencyWithdraw] at h
  split at h
  · exact Option.noConfusion h
  split at h
  · exact Option.noConfusion h
  rw [Option.some.injEq] at h
  subst h
  exact ⟨rfl, rfl, rfl, rfl, rfl, rfl, rfl, fun hp => hp⟩

/-- The call result of emergencyWithdraw exEnvOk exState, written out. -/
def exWithdrawResult : CallResult :=
  { state := { exState with balance := 0 }
    events := []
    payments := [(100, 3000)] }

/-- Witness for C10: after a concrete sweep, getPrizePool reports 3000 while
the balance is 0. -/
theorem emergencyWithdraw_frame_witness :
    emergencyWithdraw exEnvOk exState = some exWithdrawResult ∧
    (exWithdrawResult.payments = [(exState.owner, exState.balance)] ∧
     exWithdrawResult.state.balance = 0 ∧
     getPrizePool exWithdrawResult.state = getPrizePool exState ∧
     exWithdrawResult.state.entries = exState.entries ∧
     exWithdrawResult.state.roundNumber = exState.roundNumber ∧
     exWithdrawResult.state.entryFee = exState.entryFee ∧
     exWithdrawResult.state.isActive = exState.isActive ∧
     (0 < exState.prizePool →
        exWithdrawResult.state.balance < getPrizePool exWithdrawResult.state)) :=
  ⟨by decide, emergencyWithdraw_frame exEnvOk exState exWithdrawResult (by decide)⟩

end PrivLottery
